import Mathlib

/-!
# Pomodoro-CLI: verification of the Timer/Session core

A shallow embedding of the Pomodoro-CLI repository's core logic:

* `lib/validation.ts` (secure variant): `sanitizeString`, `validateCommand`
  and the per-command argument validators;
* `hooks/usePomodora.ts`: the timer state machine (`startTimer`, `pauseTimer`,
  `resetTimer`, the tick interval, `onTimerComplete`, `completeTimer`,
  `setDurations`, `updateSessionName`, `toggleTheme`, `toggleSound`),
  the stats ledger (`updateStats`, `commitSession`) and the persistence
  helpers (`saveSettings` / `saveStats`);
* `components/CommandProcessor.tsx`: `processCommand` and its handlers.

JavaScript numbers are modelled as `Int` (all arithmetic in the core is
integer-valued); `Math.floor (x / 60)` becomes `Int.fdiv x 60`, and the
`% 4 === 0` tests become `% 4 = 0` on `Int` (truncated and Euclidean
remainder agree on divisibility-by-zero tests).  Timestamps
(`new Date().toISOString()`) are threaded through as an opaque `String`
parameter `now`.  Asynchronous Firestore calls cannot change local React
state except through the code that handles their promise, so a mutation's
persistence outcome is passed in as a `Bool` (`persistOk`); the real-time
subscription (an external push channel) is outside the step functions.
-/

namespace Pomodoro

/-! ## Data model (`types`, spec section 3) -/

/-- `PomodoroSettings` (types.ts / usePomodora.ts). Durations are in seconds.
The `theme` field is a string at runtime (TS narrows it to a union type). -/
structure PomodoroSettings where
  workDuration : Int
  breakDuration : Int
  longBreakDuration : Int
  theme : String
  soundEnabled : Bool
  sessionName : String
deriving DecidableEq, Repr

/-- `PomodoroSessionData` (a SessionRecord): one history entry. -/
structure PomodoroSessionData where
  sessionName : String
  isBreak : Bool
  timestamp : String
  durationMinutes : Int
  commitMessage : Option String := none
deriving DecidableEq, Repr

/-- `PomodoroStats`: the Ledger's cumulative statistics. -/
structure PomodoroStats where
  completedToday : Int
  history : List PomodoroSessionData
  totalFocusTime : Int
  longestStreak : Int
  currentStreak : Int
deriving DecidableEq, Repr

/-- The timer portion of the hook's state (`currentTime`, `totalTime`,
`isRunning`, `isBreak`, `pomodoroCount` in usePomodora.ts). -/
structure TimerState where
  currentTime : Int
  totalTime : Int
  isRunning : Bool
  isBreak : Bool
  pomodoroCount : Int
deriving DecidableEq, Repr

/-- The full local state visible to the command handlers. -/
structure AppState where
  settings : PomodoroSettings
  stats : PomodoroStats
  timer : TimerState
deriving DecidableEq, Repr

/-- `initialSettings` (usePomodora.ts lines 10-17, constants.ts defaults). -/
def initialSettings : PomodoroSettings :=
  { workDuration := 25 * 60
    breakDuration := 5 * 60
    longBreakDuration := 15 * 60
    theme := "dark"
    soundEnabled := true
    sessionName := "Focus Session" }

/-- `initialStats` (usePomodora.ts lines 19-25). -/
def initialStats : PomodoroStats :=
  { completedToday := 0
    history := []
    totalFocusTime := 0
    longestStreak := 0
    currentStreak := 0 }

/-- The hook's initial timer state: `currentTime = totalTime = workDuration`,
not running, work phase, zero count (usePomodora.ts lines 36-40). -/
def initialAppState : AppState :=
  { settings := initialSettings
    stats := initialStats
    timer :=
      { currentTime := initialSettings.workDuration
        totalTime := initialSettings.workDuration
        isRunning := false
        isBreak := false
        pomodoroCount := 0 } }

/-! ## Validation and sanitization (`lib/validation.ts`, secure variant) -/

/-- The control characters removed by `sanitizeString`:
`/[\x00-\x1F\x7F]/`. -/
def isControlChar (c : Char) : Bool :=
  c.val ≤ 0x1F || c.val == 0x7F

/-- The single-character HTML-escape map of `sanitizeString`
(`/[<>'"&]/` replaced through `escapeMap`). -/
def escapeChar (c : Char) : List Char :=
  if c = '<' then "&lt;".data
  else if c = '>' then "&gt;".data
  else if c = '"' then "&quot;".data
  else if c = '\'' then "&#x27;".data
  else if c = '&' then "&amp;".data
  else [c]

/-- JavaScript `String.prototype.trim` on a character list: drop whitespace
from both ends. -/
def trimChars (l : List Char) : List Char :=
  ((l.dropWhile Char.isWhitespace).reverse.dropWhile Char.isWhitespace).reverse

/-- `sanitizeString` (lib/validation.ts, secure variant, lines 8-26):
remove control characters, escape `<>'"&`, trim, cap at 1000. -/
def sanitizeChars (l : List Char) : List Char :=
  (trimChars (((l.filter fun c => !isControlChar c).flatMap escapeChar))).take 1000

/-- `sanitizeString` on `String`. -/
def sanitizeString (s : String) : String :=
  String.mk (sanitizeChars s.data)

/-- `sanitizeString`'s dynamic-typing guard: a non-string input
(`typeof input !== 'string'`, modelled as `none`) yields `""`. -/
def sanitizeValue : Option String → String
  | none => ""
  | some s => sanitizeString s

/-- `ValidationResult` (lib/validation.ts lines 2-5). -/
structure ValidationResult where
  isValid : Bool
  error : Option String := none
deriving DecidableEq, Repr

/-- JS `String.prototype.trim` on `String`. -/
def trimString (s : String) : String :=
  String.mk (trimChars s.data)

/-- The regex `/^\/[a-zA-Z][a-zA-Z0-9-]*(\s.*)?$/` of `validateCommand`.
After the leading `/`, one ASCII letter, then a run of `[a-zA-Z0-9-]`;
the remainder must be empty or start with a whitespace character, and
(`.` does not match line terminators) contain no further `\n`/`\r`. -/
def patternRest : List Char → Bool
  | [] => true
  | c :: cs =>
    if c.isAlphanum || c = '-' then patternRest cs
    else if c.isWhitespace then !(cs.contains '\n') && !(cs.contains '\r')
    else false

/-- Whole-string match of the command pattern. -/
def matchesCommandPattern (l : List Char) : Bool :=
  match l with
  | '/' :: c :: rest => c.isAlpha && patternRest rest
  | _ => false

/-- `validateCommand` (lib/validation.ts, secure variant, lines 29-57):
reject empty input, input over 500 characters, input whose sanitized
trim is empty or does not start with `/`, and input failing the command
pattern. -/
def validateCommand (commandStr : String) : ValidationResult :=
  if commandStr = "" then ⟨false, some "Command cannot be empty"⟩
  else if commandStr.length > 500 then ⟨false, some "Command too long"⟩
  else
    let t := trimChars (sanitizeChars commandStr.data)
    if t = [] then ⟨false, some "Command cannot be empty"⟩
    else if t.head? ≠ some '/' then ⟨false, some "Commands must start with /"⟩
    else if matchesCommandPattern t = false then ⟨false, some "Invalid command format"⟩
    else ⟨true, none⟩

/-- JS `String.prototype.toLowerCase` (ASCII range, as the command tokens
use). -/
def toLowerString (s : String) : String :=
  String.mk (s.data.map Char.toLower)

/-- JS `String.prototype.split(' ')` on a character list: split at every
single space, keeping empty fields. -/
def splitOnSpace : List Char → List (List Char)
  | [] => [[]]
  | c :: rest =>
    let r := splitOnSpace rest
    if c = ' ' then [] :: r
    else (c :: r.headD []) :: r.tail

/-- JS `Array.prototype.join(' ')`. -/
def joinSpace : List String → String
  | [] => ""
  | [s] => s
  | s :: rest => s ++ " " ++ joinSpace rest

/-- JavaScript `parseInt(s, 10)`: skip leading whitespace, optional sign,
then the longest run of decimal digits; `NaN` (here `none`) if that run
is empty. -/
def parseIntJS (s : String) : Option Int :=
  let l := s.data.dropWhile Char.isWhitespace
  let (neg, l) : Bool × List Char :=
    match l with
    | '-' :: rest => (true, rest)
    | '+' :: rest => (false, rest)
    | _ => (false, l)
  let digits := l.takeWhile Char.isDigit
  if digits = [] then none
  else
    let n : Int := digits.foldl (fun acc c => acc * 10 + (c.toNat - '0'.toNat : Int)) 0
    some (if neg then -n else n)

/-- `validateSetCommand` (lib/validation.ts, secure variant, lines 91-110). -/
def validateSetCommand (args : List String) : ValidationResult :=
  if args.length ≠ 2 then ⟨false, some "Usage: /set [work|break|long] <minutes>"⟩
  else
    let ty := toLowerString (args.headD "")
    let minutes := parseIntJS (args.getD 1 "")
    if !(["work", "break", "long"].contains ty) then
      ⟨false, some "Invalid type."⟩
    else
      match minutes with
      | none => ⟨false, some "Minutes must be a positive number."⟩
      | some m =>
        if m ≤ 0 then ⟨false, some "Minutes must be a positive number."⟩
        else if m > 1440 then ⟨false, some "Duration cannot exceed 1440 minutes."⟩
        else ⟨true, none⟩

/-- `validateSessionName` (lib/validation.ts, secure variant, lines 112-122). -/
def validateSessionName (name : String) : ValidationResult :=
  let s := sanitizeString name
  if s = "" || trimString s = "" then ⟨false, some "Session name cannot be empty."⟩
  else if (trimString s).length > 100 then
    ⟨false, some "Session name cannot exceed 100 characters."⟩
  else ⟨true, none⟩

/-- `validateCommitMessage` (lib/validation.ts, secure variant, lines 124-134). -/
def validateCommitMessage (message : String) : ValidationResult :=
  let s := sanitizeString message
  if s = "" || trimString s = "" then ⟨false, some "Commit message cannot be empty."⟩
  else if (trimString s).length > 500 then
    ⟨false, some "Commit message cannot exceed 500 characters."⟩
  else ⟨true, none⟩

/-- `validateTheme` (lib/validation.ts, secure variant, lines 136-144). -/
def validateTheme (theme : String) : ValidationResult :=
  let s := sanitizeString theme
  if s ≠ "" && !(["light", "dark"].contains (toLowerString s)) then
    ⟨false, some "Invalid theme."⟩
  else ⟨true, none⟩

/-- `validateSound` (lib/validation.ts, secure variant, lines 146-154). -/
def validateSound (sound : String) : ValidationResult :=
  let s := sanitizeString sound
  if s ≠ "" && !(["on", "off"].contains (toLowerString s)) then
    ⟨false, some "Invalid sound option."⟩
  else ⟨true, none⟩

/-! ## Timer engine and ledger (`hooks/usePomodora.ts`)

All hook functions are modelled as pure transformers of `AppState`.  The
Firestore writes they issue (`saveSettings`, `saveStats`,
`addSessionToHistory`) never change local state on either outcome: the hook
awaits them inside try/catch blocks whose catch bodies only log
(usePomodora.ts lines 120-141, 193-199, 367-373), relying on the real-time
listener to revert remote divergence.  User-facing message strings in
results are abbreviated. -/

/-- The phase-duration conditional repeated in the settings-change effect,
`startTimer` and `resetTimer` (usePomodora.ts lines 155-157, 280-282,
293-295): `isBreak ? (pomodoroCount > 0 && pomodoroCount % 4 === 0 ?
longBreakDuration : breakDuration) : workDuration`. -/
def derivePhaseDuration (s : PomodoroSettings) (isBreak : Bool)
    (pomodoroCount : Int) : Int :=
  if isBreak then
    if 0 < pomodoroCount ∧ pomodoroCount % 4 = 0 then s.longBreakDuration
    else s.breakDuration
  else s.workDuration

/-- `startTimer` (usePomodora.ts lines 278-287): reload the clock when it
reads 0, then run. -/
def startTimer (st : AppState) : AppState :=
  let t := st.timer
  let t :=
    if t.currentTime = 0 then
      let d := derivePhaseDuration st.settings t.isBreak t.pomodoroCount
      { t with currentTime := d, totalTime := d }
    else t
  { st with timer := { t with isRunning := true } }

/-- `pauseTimer` (usePomodora.ts line 289). -/
def pauseTimer (st : AppState) : AppState :=
  { st with timer := { st.timer with isRunning := false } }

/-- `resetTimer` (usePomodora.ts lines 291-298): stop and restore the full
duration of the current phase. -/
def resetTimer (st : AppState) : AppState :=
  let d := derivePhaseDuration st.settings st.timer.isBreak st.timer.pomodoroCount
  { st with
    timer := { st.timer with isRunning := false, currentTime := d, totalTime := d } }

/-- The completed-phase type passed to `updateStats` (`'work' | 'break'`). -/
inductive PhaseType
  | work
  | brk
deriving DecidableEq, Repr

/-- JS `Array.prototype.slice(-n)`: the last `n` elements. -/
def lastN {α : Type} (n : Nat) (l : List α) : List α :=
  l.drop (l.length - n)

/-- The `sessionData` record built by `updateStats` (usePomodora.ts lines
179-185).  For a break the recorded duration uses
`pomodoroCount % 4 === 0 ? longBreakDuration : breakDuration` — note,
unlike `derivePhaseDuration`, without the `pomodoroCount > 0` guard. -/
def updateStatsRecord (settings : PomodoroSettings) (pomodoroCount : Int)
    (ty : PhaseType) (now : String) : PomodoroSessionData :=
  { sessionName := settings.sessionName
    isBreak := match ty with | .brk => true | .work => false
    timestamp := now
    durationMinutes :=
      Int.fdiv
        (match ty with
         | .work => settings.workDuration
         | .brk =>
           if pomodoroCount % 4 = 0 then settings.longBreakDuration
           else settings.breakDuration)
        60 }

/-- `updateStats` (usePomodora.ts lines 168-200): a work completion bumps
`completedToday`, `totalFocusTime` (by `workDuration` in minutes),
`currentStreak` and `longestStreak`; either completion appends the session
record to the history, keeping only the most recent 50 entries
(`.slice(-50)`). -/
def updateStats (settings : PomodoroSettings) (pomodoroCount : Int)
    (stats : PomodoroStats) (ty : PhaseType) (now : String) : PomodoroStats :=
  let s :=
    match ty with
    | .work =>
      let current := stats.currentStreak + 1
      { stats with
        completedToday := stats.completedToday + 1
        totalFocusTime := stats.totalFocusTime + Int.fdiv settings.workDuration 60
        currentStreak := current
        longestStreak := max stats.longestStreak current }
    | .brk => stats
  { s with
    history := lastN 50 (s.history ++ [updateStatsRecord settings pomodoroCount ty now]) }

/-- `onTimerComplete` (usePomodora.ts lines 202-250): record the finished
phase, then transition — after work, to a break whose duration is the long
one exactly when `(pomodoroCount + 1) % 4 === 0`, incrementing the count;
after a break, back to work.  The `sessionName` is rewritten to the new
phase's label.  (The settings-change effect of lines 151-161 then re-derives
the idle clock from the new settings; it assigns the same duration.) -/
def onTimerComplete (st : AppState) (now : String) : AppState :=
  if st.timer.isBreak = false then
    let stats := updateStats st.settings st.timer.pomodoroCount st.stats .work now
    let isLong := (st.timer.pomodoroCount + 1) % 4 = 0
    let nextDuration :=
      if isLong then st.settings.longBreakDuration else st.settings.breakDuration
    { settings :=
        { st.settings with
          sessionName := if isLong then "Long Break" else "Short Break" }
      stats := stats
      timer :=
        { currentTime := nextDuration
          totalTime := nextDuration
          isRunning := false
          isBreak := true
          pomodoroCount := st.timer.pomodoroCount + 1 } }
  else
    let stats := updateStats st.settings st.timer.pomodoroCount st.stats .brk now
    { settings := { st.settings with sessionName := "Focus Session" }
      stats := stats
      timer :=
        { st.timer with
          currentTime := st.settings.workDuration
          totalTime := st.settings.workDuration
          isRunning := false
          isBreak := false } }

/-- One interval tick while running (usePomodora.ts lines 253-275): when the
previous value is `<= 1` the updater returns 0 and fires `onTimerComplete`,
whose queued assignments then install the next phase's full duration;
otherwise the countdown decrements by one. -/
def tick (st : AppState) (now : String) : AppState :=
  if st.timer.currentTime ≤ 1 then onTimerComplete st now
  else { st with timer := { st.timer with currentTime := st.timer.currentTime - 1 } }

/-- `completeTimer` (usePomodora.ts lines 300-313): refused (returns
`false`, state untouched) when not running at full duration; otherwise
pauses, records the current phase type with the ledger, and resets the
clock of the *unchanged* phase. -/
def completeTimer (st : AppState) (now : String) : AppState × Bool :=
  if st.timer.isRunning = false ∧ st.timer.currentTime = st.timer.totalTime then
    (st, false)
  else
    let st1 := pauseTimer st
    let ty := if st1.timer.isBreak then PhaseType.brk else PhaseType.work
    let st2 :=
      { st1 with
        stats := updateStats st1.settings st1.timer.pomodoroCount st1.stats ty now }
    (resetTimer st2, true)

/-- `setDurations` (usePomodora.ts lines 315-329): overwrite the supplied
durations (minutes converted to seconds); when not running the idle clock is
re-derived for the active phase (the handler's `resetTimer` call closes over
the stale settings, but the settings-change effect of lines 151-161
immediately recomputes from the new settings — the settled value is shown
here).  `applyDurations` is the settings update of lines 316-321. -/
def applyDurations (s : PomodoroSettings) (w b l : Option Int) : PomodoroSettings :=
  { s with
    workDuration := match w with | some m => m * 60 | none => s.workDuration
    breakDuration := match b with | some m => m * 60 | none => s.breakDuration
    longBreakDuration := match l with | some m => m * 60 | none => s.longBreakDuration }

def setDurations (st : AppState) (w b l : Option Int) : AppState :=
  let st1 := { st with settings := applyDurations st.settings w b l }
  if st1.timer.isRunning = false then resetTimer st1 else st1

/-- `updateSessionName` (usePomodora.ts lines 331-335). -/
def updateSessionName (st : AppState) (name : String) : AppState :=
  { st with settings := { st.settings with sessionName := name } }

/-- `toggleTheme` (usePomodora.ts lines 337-344):
`newTheme || (theme === 'dark' ? 'light' : 'dark')` — an absent (or
falsy empty) argument toggles. -/
def toggleTheme (st : AppState) (newTheme : Option String) : AppState :=
  let toggled := if st.settings.theme = "dark" then "light" else "dark"
  let th :=
    match newTheme with
    | some s => if s = "" then toggled else s
    | none => toggled
  { st with settings := { st.settings with theme := th } }

/-- `toggleSound` (usePomodora.ts lines 345-352). -/
def toggleSound (st : AppState) (enable : Option Bool) : AppState :=
  let v :=
    match enable with
    | some b => b
    | none => !st.settings.soundEnabled
  { st with settings := { st.settings with soundEnabled := v } }

/-- `commitSession` (usePomodora.ts lines 354-374): append one record whose
duration is the elapsed time `totalTime - currentTime` in whole minutes and
whose `commitMessage` is the supplied message; the history is *not*
truncated here and no counter changes. -/
def commitSession (st : AppState) (message : String) (now : String) : AppState :=
  let sd : PomodoroSessionData :=
    { sessionName := st.settings.sessionName
      isBreak := st.timer.isBreak
      timestamp := now
      durationMinutes := Int.fdiv (st.timer.totalTime - st.timer.currentTime) 60
      commitMessage := some message }
  { st with stats := { st.stats with history := st.stats.history ++ [sd] } }

/-! ## Command interpreter (`components/CommandProcessor.tsx`) -/

/-- `CommandResult` (types): the uniform handler result. -/
structure CommandResult where
  success : Bool
  message : Option String := none
  error : Option String := none
deriving DecidableEq, Repr

/-- The outcome of one `processCommand` call: the new local state, the
returned `CommandResult`, and whether `firestoreService.deleteUserData` was
invoked during the call. -/
structure StepResult where
  state : AppState
  result : CommandResult
  deleteRequested : Bool
deriving DecidableEq, Repr

/-- `argString.replace(/^["']|["']$/g, '')` (CommandProcessor.tsx lines 256,
313): strip one leading and one trailing quote character. -/
def stripQuotes (s : String) : String :=
  let l := s.data
  let l1 :=
    match l with
    | c :: rest => if c = '"' || c = '\'' then rest else l
    | [] => []
  let l2 :=
    match l1.getLast? with
    | some c => if c = '"' || c = '\'' then l1.dropLast else l1
    | none => l1
  String.mk l2

/-- `handlePlayCommand` (CommandProcessor.tsx lines 140-167). -/
def handlePlayCommand (st : AppState) : StepResult :=
  if st.timer.isRunning then
    ⟨st, ⟨false, some "Timer already running", none⟩, false⟩
  else
    ⟨startTimer st, ⟨true, some "Timer started", none⟩, false⟩

/-- `handlePauseCommand` (CommandProcessor.tsx lines 169-190). -/
def handlePauseCommand (st : AppState) : StepResult :=
  if st.timer.isRunning = false then
    ⟨st, ⟨false, some "Timer not running", none⟩, false⟩
  else
    ⟨pauseTimer st, ⟨true, some "Timer paused", none⟩, false⟩

/-- `handleResetCommand` (CommandProcessor.tsx lines 192-203). -/
def handleResetCommand (st : AppState) : StepResult :=
  ⟨resetTimer st, ⟨true, some "Timer reset", none⟩, false⟩

/-- `handleCompleteCommand` (CommandProcessor.tsx lines 205-240): the guard
of `completeTimer` is checked here first, then `completeTimer` runs. -/
def handleCompleteCommand (st : AppState) (now : String) : StepResult :=
  if st.timer.isRunning = false ∧ st.timer.currentTime = st.timer.totalTime then
    ⟨st, ⟨false, none, some "No active session"⟩, false⟩
  else
    let r := completeTimer st now
    if r.2 then ⟨r.1, ⟨true, some "Session completed", none⟩, false⟩
    else ⟨r.1, ⟨false, none, some "Failed to complete session"⟩, false⟩

/-- `handleCommitCommand` (CommandProcessor.tsx lines 242-266). -/
def handleCommitCommand (st : AppState) (argString : String) (now : String) :
    StepResult :=
  let v := validateCommitMessage argString
  if v.isValid = false then ⟨st, ⟨false, none, v.error⟩, false⟩
  else
    let commitMessage := sanitizeString (stripQuotes argString)
    ⟨commitSession st commitMessage now, ⟨true, some "Commit logged", none⟩, false⟩

/-- `handleSetCommand` (CommandProcessor.tsx lines 268-297): after
validation, `setDurations` receives the single computed key
`{ [type.toLowerCase()]: minutes }`. -/
def handleSetCommand (st : AppState) (args : List String) : StepResult :=
  let v := validateSetCommand args
  if v.isValid = false then ⟨st, ⟨false, none, v.error⟩, false⟩
  else
    let ty := toLowerString (args.headD "")
    let minutes := (parseIntJS (args.getD 1 "")).getD 0
    let st2 := setDurations st
      (if ty = "work" then some minutes else none)
      (if ty = "break" then some minutes else none)
      (if ty = "long" then some minutes else none)
    ⟨st2, ⟨true, some "Duration set", none⟩, false⟩

/-- `handleSessionCommand` (CommandProcessor.tsx lines 299-327). -/
def handleSessionCommand (st : AppState) (argString : String) : StepResult :=
  let v := validateSessionName argString
  if v.isValid = false then ⟨st, ⟨false, none, v.error⟩, false⟩
  else
    let newName := sanitizeString (stripQuotes argString)
    let st2 := updateSessionName st newName
    let st3 := if st2.timer.isRunning = false then resetTimer st2 else st2
    ⟨st3, ⟨true, some "Session name updated", none⟩, false⟩

/-- `handleThemeCommand` (CommandProcessor.tsx lines 329-357): the argument
is only validated when truthy (present and non-empty); `toggleTheme`
receives it lower-cased. -/
def handleThemeCommand (st : AppState) (themeArg : Option String) : StepResult :=
  match themeArg with
  | some s =>
    if s ≠ "" && (validateTheme s).isValid = false then
      ⟨st, ⟨false, none, (validateTheme s).error⟩, false⟩
    else
      ⟨toggleTheme st (some (toLowerString s)), ⟨true, some "Theme set", none⟩, false⟩
  | none => ⟨toggleTheme st none, ⟨true, some "Theme set", none⟩, false⟩

/-- `handleSoundCommand` (CommandProcessor.tsx lines 359-386):
`enable = soundArg ? soundArg.toLowerCase() === 'on' : undefined`. -/
def handleSoundCommand (st : AppState) (soundArg : Option String) : StepResult :=
  match soundArg with
  | some s =>
    if s ≠ "" && (validateSound s).isValid = false then
      ⟨st, ⟨false, none, (validateSound s).error⟩, false⟩
    else
      let enable : Option Bool :=
        if s = "" then none else some (toLowerString s == "on")
      ⟨toggleSound st enable, ⟨true, some "Sound toggled", none⟩, false⟩
  | none => ⟨toggleSound st none, ⟨true, some "Sound toggled", none⟩, false⟩

/-- `handleResetDataCommand` (CommandProcessor.tsx lines 480-505): only
warning output is emitted; no state change and no Store call. -/
def handleResetDataCommand (st : AppState) : StepResult :=
  ⟨st, ⟨true, some "Reset confirmation required", none⟩, false⟩

/-- `handleConfirmResetCommand` (CommandProcessor.tsx lines 507-561): with no
authenticated user it fails without calling the Store; otherwise
`deleteUserData` is invoked unconditionally (there is no pending-reset
check), succeeding or failing with the Store call. -/
def handleConfirmResetCommand (st : AppState) (auth : Option String)
    (persistOk : Bool) : StepResult :=
  match auth with
  | none => ⟨st, ⟨false, none, some "User not authenticated"⟩, false⟩
  | some _ =>
    if persistOk then ⟨st, ⟨true, some "Data reset completed", none⟩, true⟩
    else ⟨st, ⟨false, none, some "Reset failed"⟩, true⟩

/-- The switch statement of `processCommand` (CommandProcessor.tsx lines
45-99), dispatching on the lower-cased first token. -/
def dispatchCommand (auth : Option String) (persistOk : Bool) (now : String)
    (st : AppState) (command : String) (args : List String)
    (argString : String) : StepResult :=
  if command = "/play" then handlePlayCommand st
    else if command = "/pause" then handlePauseCommand st
    else if command = "/reset" then handleResetCommand st
    else if command = "/complete" then handleCompleteCommand st now
    else if command = "/commit" then handleCommitCommand st argString now
    else if command = "/set" then handleSetCommand st args
    else if command = "/session" then handleSessionCommand st argString
    else if command = "/theme" then handleThemeCommand st args.head?
    else if command = "/sound" then handleSoundCommand st args.head?
    else if command = "/stats" then ⟨st, ⟨true, some "Stats displayed", none⟩, false⟩
    else if command = "/help" then ⟨st, ⟨true, some "Help displayed", none⟩, false⟩
    else if command = "/clear" then ⟨st, ⟨true, some "Clear command", none⟩, false⟩
    else if command = "/logout" then ⟨st, ⟨true, some "Logging out", none⟩, false⟩
    else if command = "/reset-data" then handleResetDataCommand st
    else if command = "/confirm-reset" then handleConfirmResetCommand st auth persistOk
    else ⟨st, ⟨false, none, some "Unknown command"⟩, false⟩

/-- `processCommand` (CommandProcessor.tsx lines 23-110): validate the raw
line with `validateCommand`, then split the raw line's `trim()` on single
spaces, lower-case the first token and dispatch through the switch.
`auth` is the authenticated uid (if any); `persistOk` the outcome of any
Firestore write the chosen handler performs. -/
def processCommand (auth : Option String) (persistOk : Bool) (now : String)
    (st : AppState) (commandStr : String) : StepResult :=
  let v := validateCommand commandStr
  if v.isValid = false then ⟨st, ⟨false, none, v.error⟩, false⟩
  else
    let parts := (splitOnSpace (trimChars commandStr.data)).map String.mk
    dispatchCommand auth persistOk now st (toLowerString (parts.headD ""))
      parts.tail (joinSpace parts.tail)

/-- Processing a sequence of command lines in order, reporting whether any
call in the sequence triggered Store deletion. -/
def runCommands (auth : Option String) (persistOk : Bool) (now : String) :
    AppState → List String → AppState × Bool
  | st, [] => (st, false)
  | st, c :: cs =>
    let r := processCommand auth persistOk now st c
    let rest := runCommands auth persistOk now r.state cs
    (rest.1, r.deleteRequested || rest.2)

/-! ## Helper lemmas and concrete states -/

/-- A character acceptable in sanitized output: not a control character and
not a literal `<`, `>`, double quote or single quote. -/
def cleanChar (c : Char) : Bool :=
  !isControlChar c && !(c = '<' || c = '>' || c = '"' || c = '\'')

theorem mem_trimChars {c : Char} {l : List Char} (h : c ∈ trimChars l) : c ∈ l := by
  unfold trimChars at h
  rw [List.mem_reverse] at h
  have h2 := (List.dropWhile_sublist Char.isWhitespace).mem h
  rw [List.mem_reverse] at h2
  exact (List.dropWhile_sublist Char.isWhitespace).mem h2

theorem escapeChar_clean {a c : Char} (ha : isControlChar a = false)
    (h : c ∈ escapeChar a) : cleanChar c = true := by
  by_cases h1 : a = '<'
  · rw [escapeChar, if_pos h1] at h; fin_cases h <;> decide
  by_cases h2 : a = '>'
  · rw [escapeChar, if_neg h1, if_pos h2] at h; fin_cases h <;> decide
  by_cases h3 : a = '"'
  · rw [escapeChar, if_neg h1, if_neg h2, if_pos h3] at h; fin_cases h <;> decide
  by_cases h4 : a = '\''
  · rw [escapeChar, if_neg h1, if_neg h2, if_neg h3, if_pos h4] at h
    fin_cases h <;> decide
  by_cases h5 : a = '&'
  · rw [escapeChar, if_neg h1, if_neg h2, if_neg h3, if_neg h4, if_pos h5] at h
    fin_cases h <;> decide
  · rw [escapeChar, if_neg h1, if_neg h2, if_neg h3, if_neg h4, if_neg h5] at h
    simp only [List.mem_singleton] at h
    subst h
    simp [cleanChar, ha, h1, h2, h3, h4]

theorem sanitizeChars_clean {l : List Char} {c : Char} (h : c ∈ sanitizeChars l) :
    cleanChar c = true := by
  unfold sanitizeChars at h
  have h1 := (List.take_sublist _ _).mem h
  have h2 := mem_trimChars h1
  rcases List.mem_flatMap.mp h2 with ⟨a, ha, hc⟩
  have hctrl : isControlChar a = false := by
    have := List.of_mem_filter ha
    simpa using this
  exact escapeChar_clean hctrl hc

/-! ## Claim theorems -/

/-- C10: for every input value, `sanitizeString` returns a string of length
at most 1000 containing no control characters (U+0000 to U+001F, U+007F) and
no literal `<`, `>`, `"` or single quote, and returns the empty string for
any non-string input. -/
theorem c10_sanitize_output_clean :
    ∀ v : Option String,
      (sanitizeValue v).length ≤ 1000
      ∧ (sanitizeValue v).data.all cleanChar = true
      ∧ sanitizeValue none = "" := by
  intro v
  refine ⟨?_, ?_, rfl⟩
  · cases v with
    | none => decide
    | some s =>
      show (sanitizeChars s.data).length ≤ 1000
      unfold sanitizeChars
      simp only [List.length_take]
      omega
  · cases v with
    | none => decide
    | some s =>
      rw [List.all_eq_true]
      intro c hc
      exact sanitizeChars_clean hc

/-- C7: recording a completed work phase increments `completedToday` and
`currentStreak`, adds the configured work duration in minutes to
`totalFocusTime`, and sets `longestStreak` to the maximum of the old value
and the new streak; recording a break changes none of the four counters. -/
theorem c7_ledger_work_counters :
    ∀ (settings : PomodoroSettings) (count : Int) (stats : PomodoroStats) (now : String),
      (updateStats settings count stats .work now).completedToday
          = stats.completedToday + 1
      ∧ (updateStats settings count stats .work now).totalFocusTime
          = stats.totalFocusTime + Int.fdiv settings.workDuration 60
      ∧ (updateStats settings count stats .work now).currentStreak
          = stats.currentStreak + 1
      ∧ (updateStats settings count stats .work now).longestStreak
          = max stats.longestStreak (stats.currentStreak + 1)
      ∧ (updateStats settings count stats .brk now).completedToday
          = stats.completedToday
      ∧ (updateStats settings count stats .brk now).totalFocusTime
          = stats.totalFocusTime
      ∧ (updateStats settings count stats .brk now).currentStreak
          = stats.currentStreak
      ∧ (updateStats settings count stats .brk now).longestStreak
          = stats.longestStreak := by
  intro settings count stats now
  exact ⟨rfl, rfl, rfl, rfl, rfl, rfl, rfl, rfl⟩

/-- C8: `commitSession` appends exactly one record whose duration is
`(totalTime - currentTime) / 60` rounded down and whose `commitMessage` is
the supplied text, and leaves the four counters, the Settings and the
timer unchanged. -/
theorem c8_commit_frame :
    ∀ (st : AppState) (msg now : String),
      (∃ sd : PomodoroSessionData,
          (commitSession st msg now).stats.history = st.stats.history ++ [sd]
          ∧ sd.durationMinutes
              = Int.fdiv (st.timer.totalTime - st.timer.currentTime) 60
          ∧ sd.commitMessage = some msg)
      ∧ (commitSession st msg now).stats.completedToday = st.stats.completedToday
      ∧ (commitSession st msg now).stats.totalFocusTime = st.stats.totalFocusTime
      ∧ (commitSession st msg now).stats.currentStreak = st.stats.currentStreak
      ∧ (commitSession st msg now).stats.longestStreak = st.stats.longestStreak
      ∧ (commitSession st msg now).settings = st.settings
      ∧ (commitSession st msg now).timer = st.timer := by
  intro st msg now
  exact ⟨⟨_, rfl, rfl, rfl⟩, rfl, rfl, rfl, rfl, rfl, rfl⟩

/-- C4: when a running work phase completes at countdown zero, the next
phase is a break whose `totalTime` (and `currentTime`) is
`longBreakDuration` exactly when `(pomodoroCount + 1) % 4 = 0`, else
`breakDuration`, and `pomodoroCount` goes up by exactly one. -/
theorem c4_long_break_every_fourth :
    ∀ (st : AppState) (now : String),
      st.timer.isRunning = true →
      st.timer.isBreak = false →
      st.timer.currentTime ≤ 1 →
      (tick st now).timer.isBreak = true
      ∧ (tick st now).timer.pomodoroCount = st.timer.pomodoroCount + 1
      ∧ (tick st now).timer.totalTime
          = (if (st.timer.pomodoroCount + 1) % 4 = 0 then st.settings.longBreakDuration
             else st.settings.breakDuration)
      ∧ (tick st now).timer.currentTime = (tick st now).timer.totalTime := by
  intro st now _ hb hc
  rw [tick, if_pos hc, onTimerComplete, if_pos hb]
  exact ⟨rfl, rfl, rfl, rfl⟩

/-- A running work-phase state one second from completion. -/
def runningWorkState : AppState :=
  { initialAppState with
    timer := { initialAppState.timer with isRunning := true, currentTime := 1 } }

/-- Witness for C4 at a concrete running work state with one second left. -/
theorem c4_long_break_every_fourth_witness :
    (tick runningWorkState "t").timer.isBreak = true
    ∧ (tick runningWorkState "t").timer.pomodoroCount
        = runningWorkState.timer.pomodoroCount + 1
    ∧ (tick runningWorkState "t").timer.totalTime
        = (if (runningWorkState.timer.pomodoroCount + 1) % 4 = 0 then
             runningWorkState.settings.longBreakDuration
           else runningWorkState.settings.breakDuration)
    ∧ (tick runningWorkState "t").timer.currentTime
        = (tick runningWorkState "t").timer.totalTime :=
  c4_long_break_every_fourth runningWorkState "t" rfl rfl (by decide)

/-- A paused mid-work state: the timer was started and paused with 100
seconds remaining of the default 1500. -/
def midWorkState : AppState :=
  { initialAppState with
    timer := { initialAppState.timer with currentTime := 100 } }

/-- C2 counterexample: completing a work phase through `completeTimer`
(the `/complete` path) does *not* transition to a break and does not
increment `pomodoroCount`; the state stays a work phase with the count
unchanged, refuting the claimed work-to-break transition. -/
theorem c2_complete_counterexample :
    (completeTimer midWorkState "t").2 = true
    ∧ (completeTimer midWorkState "t").1.timer.isBreak = false
    ∧ (completeTimer midWorkState "t").1.timer.pomodoroCount = 0
    ∧ midWorkState.timer.isBreak = false
    ∧ midWorkState.timer.pomodoroCount = 0 := by
  exact ⟨rfl, rfl, rfl, rfl, rfl⟩

/-- C2 amended: `/complete` is refused exactly when the timer is not
running at full duration; otherwise it records the current phase type with
the Ledger and resets the clock of the *same* phase — `isBreak`,
`pomodoroCount` and the Settings are unchanged and no phase transition
occurs. -/
theorem c2_complete_records_same_phase :
    ∀ (st : AppState) (now : String),
      (st.timer.isRunning = false ∧ st.timer.currentTime = st.timer.totalTime →
        completeTimer st now = (st, false))
      ∧ (¬(st.timer.isRunning = false ∧ st.timer.currentTime = st.timer.totalTime) →
        (completeTimer st now).2 = true
        ∧ (completeTimer st now).1.stats
            = updateStats st.settings st.timer.pomodoroCount st.stats
                (if st.timer.isBreak then PhaseType.brk else PhaseType.work) now
        ∧ (completeTimer st now).1.settings = st.settings
        ∧ (completeTimer st now).1.timer.isBreak = st.timer.isBreak
        ∧ (completeTimer st now).1.timer.pomodoroCount = st.timer.pomodoroCount
        ∧ (completeTimer st now).1.timer.isRunning = false
        ∧ (completeTimer st now).1.timer.currentTime
            = derivePhaseDuration st.settings st.timer.isBreak st.timer.pomodoroCount
        ∧ (completeTimer st now).1.timer.totalTime
            = derivePhaseDuration st.settings st.timer.isBreak st.timer.pomodoroCount) := by
  intro st now
  constructor
  · intro h
    rw [completeTimer, if_pos h]
  · intro h
    rw [completeTimer, if_neg h]
    exact ⟨rfl, rfl, rfl, rfl, rfl, rfl, rfl, rfl⟩

/-- Witness for C2: the refusal branch at the untouched initial state, and
the recording branch at the paused mid-work state. -/
theorem c2_complete_records_same_phase_witness :
    completeTimer initialAppState "t" = (initialAppState, false)
    ∧ (completeTimer midWorkState "t").2 = true :=
  ⟨(c2_complete_records_same_phase initialAppState "t").1 ⟨rfl, rfl⟩,
   ((c2_complete_records_same_phase midWorkState "t").2 (by decide)).1⟩

/-- A plain session record used to build concrete histories. -/
def sampleRecord : PomodoroSessionData :=
  { sessionName := "Focus Session"
    isBreak := false
    timestamp := "t0"
    durationMinutes := 25 }

/-- A state whose history already holds exactly 50 records. -/
def fullHistoryState : AppState :=
  { initialAppState with
    stats := { initialStats with history := List.replicate 50 sampleRecord } }

/-- C1 counterexample: `commitSession` (the `/commit` path) appends without
truncating, so a history of 50 entries grows to 51, refuting the claimed
50-entry cap over commit appends. -/
theorem c1_commit_overflows_counterexample :
    fullHistoryState.stats.history.length = 50
    ∧ (commitSession fullHistoryState "m" "t").stats.history.length = 51 := by
  constructor <;> decide

/-- C1 amended: the Ledger's phase-completion append (`updateStats`) always
leaves at most 50 entries, appending in insertion order and evicting the
oldest entry when the history already holds 50; `commitSession` appends one
entry with no truncation, so `/commit` can grow the history past 50. -/
theorem c1_history_cap_on_completion :
    ∀ (settings : PomodoroSettings) (count : Int) (stats : PomodoroStats)
      (ty : PhaseType) (now : String) (st : AppState) (msg now2 : String),
      (updateStats settings count stats ty now).history.length ≤ 50
      ∧ (stats.history.length ≤ 49 →
          (updateStats settings count stats ty now).history
            = stats.history ++ [updateStatsRecord settings count ty now])
      ∧ (stats.history.length = 50 →
          (updateStats settings count stats ty now).history
            = stats.history.tail ++ [updateStatsRecord settings count ty now])
      ∧ (commitSession st msg now2).stats.history.length
          = st.stats.history.length + 1 := by
  intro settings count stats ty now st msg now2
  have hhist : (updateStats settings count stats ty now).history
      = lastN 50 (stats.history ++ [updateStatsRecord settings count ty now]) := by
    cases ty <;> rfl
  refine ⟨?_, ?_, ?_, ?_⟩
  · rw [hhist]
    unfold lastN
    simp only [List.length_drop]
    omega
  · intro hle
    rw [hhist]
    unfold lastN
    have : (stats.history ++ [updateStatsRecord settings count ty now]).length - 50 = 0 := by
      simp only [List.length_append, List.length_singleton]
      omega
    rw [this, List.drop_zero]
  · intro h50
    rw [hhist]
    unfold lastN
    have : (stats.history ++ [updateStatsRecord settings count ty now]).length - 50 = 1 := by
      simp only [List.length_append, List.length_singleton]
      omega
    rw [this, List.drop_append_of_le_length (by omega), List.drop_one]
  · show (st.stats.history ++ [_]).length = st.stats.history.length + 1
    simp

/-- Witness for C1 at the empty initial history (append branch) and at a
full 50-entry history (eviction branch). -/
theorem c1_history_cap_on_completion_witness :
    (updateStats initialSettings 0 initialStats .work "t").history
      = initialStats.history ++ [updateStatsRecord initialSettings 0 .work "t"]
    ∧ (updateStats initialSettings 0 fullHistoryState.stats .work "t").history
      = fullHistoryState.stats.history.tail
          ++ [updateStatsRecord initialSettings 0 .work "t"] :=
  ⟨(c1_history_cap_on_completion initialSettings 0 initialStats .work "t"
      initialAppState "m" "t").2.1 (by decide),
   (c1_history_cap_on_completion initialSettings 0 fullHistoryState.stats .work "t"
      initialAppState "m" "t").2.2.1 (by decide)⟩

/-- The TimerState invariant of spec section 3:
`0 ≤ currentTime ≤ totalTime`. -/
def TimerInv (t : TimerState) : Prop :=
  0 ≤ t.currentTime ∧ t.currentTime ≤ t.totalTime

/-- Settings well-formedness (spec section 3: durations are positive
seconds). -/
def SettingsWF (s : PomodoroSettings) : Prop :=
  0 < s.workDuration ∧ 0 < s.breakDuration ∧ 0 < s.longBreakDuration

theorem derivePhaseDuration_pos {s : PomodoroSettings} (h : SettingsWF s)
    (ib : Bool) (pc : Int) : 0 < derivePhaseDuration s ib pc := by
  rcases h with ⟨hw, hb, hl⟩
  unfold derivePhaseDuration
  split
  · split
    · exact hl
    · exact hb
  · exact hw

theorem resetTimer_inv {st : AppState} (h : SettingsWF st.settings) :
    TimerInv (resetTimer st).timer :=
  ⟨le_of_lt (derivePhaseDuration_pos h _ _), le_refl _⟩

theorem onTimerComplete_inv {st : AppState} (h : SettingsWF st.settings)
    (now : String) : TimerInv (onTimerComplete st now).timer := by
  rcases h with ⟨hw, hb, hl⟩
  unfold onTimerComplete TimerInv
  split
  · dsimp only
    constructor
    · split
      · exact le_of_lt hl
      · exact le_of_lt hb
    · exact le_refl _
  · exact ⟨le_of_lt hw, le_refl _⟩

theorem onTimerComplete_not_running (st : AppState) (now : String) :
    (onTimerComplete st now).timer.isRunning = false := by
  unfold onTimerComplete
  split <;> rfl

/-- C6: every Timer Engine operation — `startTimer`, `pauseTimer`,
`resetTimer`, one tick, `completeTimer`, and `setDurations` while not
running — preserves `0 ≤ currentTime ≤ totalTime` (for well-formed
positive durations); and a tick that leaves the timer running decrements
`currentTime` by exactly one, never below 0. -/
theorem c6_timer_invariant_preserved :
    ∀ (st : AppState) (now : String) (w b l : Option Int),
      SettingsWF st.settings →
      TimerInv st.timer →
      (∀ m ∈ w, 0 < m) → (∀ m ∈ b, 0 < m) → (∀ m ∈ l, 0 < m) →
      TimerInv (startTimer st).timer
      ∧ TimerInv (pauseTimer st).timer
      ∧ TimerInv (resetTimer st).timer
      ∧ TimerInv (tick st now).timer
      ∧ TimerInv (completeTimer st now).1.timer
      ∧ (st.timer.isRunning = false → TimerInv (setDurations st w b l).timer)
      ∧ ((tick st now).timer.isRunning = true →
          (tick st now).timer.currentTime = st.timer.currentTime - 1
          ∧ 0 ≤ (tick st now).timer.currentTime) := by
  intro st now w b l hwf hinv hw hb hl
  obtain ⟨h0, hle⟩ := hinv
  refine ⟨?_, ?_, ?_, ?_, ?_, ?_, ?_⟩
  · simp only [startTimer]
    split
    · exact ⟨le_of_lt (derivePhaseDuration_pos hwf _ _), le_refl _⟩
    · exact ⟨h0, hle⟩
  · exact ⟨h0, hle⟩
  · exact resetTimer_inv hwf
  · unfold tick
    by_cases h1 : st.timer.currentTime ≤ 1
    · rw [if_pos h1]
      exact onTimerComplete_inv hwf now
    · rw [if_neg h1]
      constructor
      · show (0 : Int) ≤ st.timer.currentTime - 1
        omega
      · show st.timer.currentTime - 1 ≤ st.timer.totalTime
        omega
  · unfold completeTimer
    by_cases hg : st.timer.isRunning = false
        ∧ st.timer.currentTime = st.timer.totalTime
    · rw [if_pos hg]
      exact ⟨h0, hle⟩
    · rw [if_neg hg]
      exact resetTimer_inv hwf
  · intro hrun
    have hwf2 : SettingsWF (applyDurations st.settings w b l) := by
      obtain ⟨hw1, hb1, hl1⟩ := hwf
      refine ⟨?_, ?_, ?_⟩
      · cases w with
        | none => exact hw1
        | some m =>
          have h := hw m (by simp)
          show (0 : Int) < m * 60
          omega
      · cases b with
        | none => exact hb1
        | some m =>
          have h := hb m (by simp)
          show (0 : Int) < m * 60
          omega
      · cases l with
        | none => exact hl1
        | some m =>
          have h := hl m (by simp)
          show (0 : Int) < m * 60
          omega
    have hset : setDurations st w b l
        = resetTimer { st with settings := applyDurations st.settings w b l } := by
      simp [setDurations, hrun]
    rw [hset]
    exact resetTimer_inv hwf2
  · intro hrun
    unfold tick at hrun ⊢
    by_cases h1 : st.timer.currentTime ≤ 1
    · rw [if_pos h1] at hrun
      rw [onTimerComplete_not_running] at hrun
      exact absurd hrun (by simp)
    · rw [if_neg h1]
      exact ⟨rfl, by show (0 : Int) ≤ st.timer.currentTime - 1; omega⟩

/-- Witness for C6 at the initial state with no duration arguments. -/
theorem c6_timer_invariant_preserved_witness :
    TimerInv (startTimer initialAppState).timer
    ∧ TimerInv (tick initialAppState "t").timer
    ∧ TimerInv (completeTimer initialAppState "t").1.timer :=
  have h := c6_timer_invariant_preserved initialAppState "t" none none none
    (by refine ⟨?_, ?_, ?_⟩ <;> decide) (by constructor <;> decide)
    (by simp) (by simp) (by simp)
  ⟨h.1, h.2.2.2.1, h.2.2.2.2.1⟩

theorem handleConfirmReset_state (st : AppState) (auth : Option String) (p : Bool) :
    (handleConfirmResetCommand st auth p).state = st := by
  cases auth with
  | none => rfl
  | some u => cases p <;> rfl

theorem processCommand_confirmReset_requests (st : AppState) (uid now : String)
    (p : Bool) :
    (processCommand (some uid) p now st "/confirm-reset").deleteRequested = true := by
  cases p <;> rfl

/-- C3 counterexample: a `/theme light` mutation from the default state
whose Store persistence fails leaves the local theme at the new value,
not restored to the pre-mutation value, and the command still reports
success (no sync-error is surfaced). -/
theorem c3_failed_persist_keeps_mutation :
    initialAppState.settings.theme = "dark"
    ∧ (processCommand (some "uid") false "t" initialAppState
        "/theme light").state.settings.theme = "light"
    ∧ (processCommand (some "uid") false "t" initialAppState
        "/theme light").result.success = true := by
  refine ⟨rfl, ?_, ?_⟩ <;> decide

theorem dispatch_state_ignores_persist (auth : Option String) (now : String)
    (st : AppState) (c : String) (args : List String) (a : String) :
    (dispatchCommand auth false now st c args a).state
      = (dispatchCommand auth true now st c args a).state := by
  unfold dispatchCommand
  by_cases h1 : c = "/play"
  · rw [if_pos h1, if_pos h1]
  rw [if_neg h1, if_neg h1]
  by_cases h2 : c = "/pause"
  · rw [if_pos h2, if_pos h2]
  rw [if_neg h2, if_neg h2]
  by_cases h3 : c = "/reset"
  · rw [if_pos h3, if_pos h3]
  rw [if_neg h3, if_neg h3]
  by_cases h4 : c = "/complete"
  · rw [if_pos h4, if_pos h4]
  rw [if_neg h4, if_neg h4]
  by_cases h5 : c = "/commit"
  · rw [if_pos h5, if_pos h5]
  rw [if_neg h5, if_neg h5]
  by_cases h6 : c = "/set"
  · rw [if_pos h6, if_pos h6]
  rw [if_neg h6, if_neg h6]
  by_cases h7 : c = "/session"
  · rw [if_pos h7, if_pos h7]
  rw [if_neg h7, if_neg h7]
  by_cases h8 : c = "/theme"
  · rw [if_pos h8, if_pos h8]
  rw [if_neg h8, if_neg h8]
  by_cases h9 : c = "/sound"
  · rw [if_pos h9, if_pos h9]
  rw [if_neg h9, if_neg h9]
  by_cases h10 : c = "/stats"
  · rw [if_pos h10, if_pos h10]
  rw [if_neg h10, if_neg h10]
  by_cases h11 : c = "/help"
  · rw [if_pos h11, if_pos h11]
  rw [if_neg h11, if_neg h11]
  by_cases h12 : c = "/clear"
  · rw [if_pos h12, if_pos h12]
  rw [if_neg h12, if_neg h12]
  by_cases h13 : c = "/logout"
  · rw [if_pos h13, if_pos h13]
  rw [if_neg h13, if_neg h13]
  by_cases h14 : c = "/reset-data"
  · rw [if_pos h14, if_pos h14]
  rw [if_neg h14, if_neg h14]
  by_cases h15 : c = "/confirm-reset"
  · rw [if_pos h15, if_pos h15, handleConfirmReset_state, handleConfirmReset_state]
  rw [if_neg h15, if_neg h15]

/-- C3 amended: the local state after any command is the same whether the
Store persistence succeeds or fails — a rejected write is caught and only
logged, with no rollback to the pre-mutation value and no sync-error state
(reconciliation is left to the real-time Store subscription). -/
theorem c3_local_state_ignores_persistence :
    ∀ (auth : Option String) (now : String) (st : AppState) (cmd : String),
      (processCommand auth false now st cmd).state
        = (processCommand auth true now st cmd).state := by
  intro auth now st cmd
  unfold processCommand
  dsimp only
  split
  · rfl
  · exact dispatch_state_ignores_persist _ _ _ _ _ _

/-- C5 counterexample: `/confirm-reset` triggers Store deletion with no
preceding `/reset-data`, and an intervening `/play` between `/reset-data`
and `/confirm-reset` does not cancel the deletion. -/
theorem c5_confirm_reset_unguarded :
    (runCommands (some "uid") true "t" initialAppState ["/confirm-reset"]).2 = true
    ∧ (runCommands (some "uid") true "t" initialAppState
        ["/reset-data", "/play", "/confirm-reset"]).2 = true := by
  constructor <;> decide

theorem runCommands_append (auth : Option String) (p : Bool) (now : String) :
    ∀ (cmds : List String) (st : AppState) (c : String),
      (runCommands auth p now st (cmds ++ [c])).2
        = ((runCommands auth p now st cmds).2
            || (processCommand auth p now
                  (runCommands auth p now st cmds).1 c).deleteRequested) := by
  intro cmds
  induction cmds with
  | nil =>
    intro st c
    simp [runCommands]
  | cons d rest ih =>
    intro st c
    simp only [List.cons_append, runCommands, List.append_eq]
    rw [ih, Bool.or_assoc]

theorem handlePlay_noDelete (st : AppState) :
    (handlePlayCommand st).deleteRequested = false := by
  unfold handlePlayCommand
  split <;> rfl

theorem handlePause_noDelete (st : AppState) :
    (handlePauseCommand st).deleteRequested = false := by
  unfold handlePauseCommand
  split <;> rfl

theorem handleComplete_noDelete (st : AppState) (now : String) :
    (handleCompleteCommand st now).deleteRequested = false := by
  unfold handleCompleteCommand
  split
  · rfl
  · dsimp only
    split <;> rfl

theorem handleCommit_noDelete (st : AppState) (a now : String) :
    (handleCommitCommand st a now).deleteRequested = false := by
  unfold handleCommitCommand
  dsimp only
  split <;> rfl

theorem handleSet_noDelete (st : AppState) (args : List String) :
    (handleSetCommand st args).deleteRequested = false := by
  unfold handleSetCommand
  dsimp only
  split <;> rfl

theorem handleSession_noDelete (st : AppState) (a : String) :
    (handleSessionCommand st a).deleteRequested = false := by
  unfold handleSessionCommand
  dsimp only
  split <;> rfl

theorem handleTheme_noDelete (st : AppState) (t : Option String) :
    (handleThemeCommand st t).deleteRequested = false := by
  unfold handleThemeCommand
  cases t with
  | none => rfl
  | some s =>
    dsimp only
    split <;> rfl

theorem handleSound_noDelete (st : AppState) (t : Option String) :
    (handleSoundCommand st t).deleteRequested = false := by
  unfold handleSoundCommand
  cases t with
  | none => rfl
  | some s =>
    dsimp only
    split <;> rfl

theorem handleConfirmReset_delete_auth {st : AppState} {auth : Option String}
    {p : Bool}
    (h : (handleConfirmResetCommand st auth p).deleteRequested = true) :
    auth.isSome = true := by
  cases auth with
  | none => simp [handleConfirmResetCommand] at h
  | some u => rfl

/-- Only the `/confirm-reset` branch of the switch ever calls
`deleteUserData`, and only with an authenticated user. -/
theorem dispatch_delete_only_confirmReset (auth : Option String) (p : Bool)
    (now : String) (st : AppState) (c : String) (args : List String) (a : String)
    (h : (dispatchCommand auth p now st c args a).deleteRequested = true) :
    auth.isSome = true ∧ c = "/confirm-reset" := by
  unfold dispatchCommand at h
  by_cases h1 : c = "/play"
  · rw [if_pos h1, handlePlay_noDelete] at h; simp at h
  rw [if_neg h1] at h
  by_cases h2 : c = "/pause"
  · rw [if_pos h2, handlePause_noDelete] at h; simp at h
  rw [if_neg h2] at h
  by_cases h3 : c = "/reset"
  · rw [if_pos h3] at h; simp [handleResetCommand] at h
  rw [if_neg h3] at h
  by_cases h4 : c = "/complete"
  · rw [if_pos h4, handleComplete_noDelete] at h; simp at h
  rw [if_neg h4] at h
  by_cases h5 : c = "/commit"
  · rw [if_pos h5, handleCommit_noDelete] at h; simp at h
  rw [if_neg h5] at h
  by_cases h6 : c = "/set"
  · rw [if_pos h6, handleSet_noDelete] at h; simp at h
  rw [if_neg h6] at h
  by_cases h7 : c = "/session"
  · rw [if_pos h7, handleSession_noDelete] at h; simp at h
  rw [if_neg h7] at h
  by_cases h8 : c = "/theme"
  · rw [if_pos h8, handleTheme_noDelete] at h; simp at h
  rw [if_neg h8] at h
  by_cases h9 : c = "/sound"
  · rw [if_pos h9, handleSound_noDelete] at h; simp at h
  rw [if_neg h9] at h
  by_cases h10 : c = "/stats"
  · rw [if_pos h10] at h; simp at h
  rw [if_neg h10] at h
  by_cases h11 : c = "/help"
  · rw [if_pos h11] at h; simp at h
  rw [if_neg h11] at h
  by_cases h12 : c = "/clear"
  · rw [if_pos h12] at h; simp at h
  rw [if_neg h12] at h
  by_cases h13 : c = "/logout"
  · rw [if_pos h13] at h; simp at h
  rw [if_neg h13] at h
  by_cases h14 : c = "/reset-data"
  · rw [if_pos h14] at h; simp [handleResetDataCommand] at h
  rw [if_neg h14] at h
  by_cases h15 : c = "/confirm-reset"
  · rw [if_pos h15] at h
    exact ⟨handleConfirmReset_delete_auth h, h15⟩
  rw [if_neg h15] at h
  simp at h

/-- C5 amended: `/reset-data` only warns — it never calls the Store and
changes no local state; Store deletion is triggered by `/confirm-reset`
from an authenticated user no matter which commands (if any) came in
between; an unauthenticated `/confirm-reset` performs no deletion; and no
other command triggers deletion — whenever processing a line requests
Store deletion, the user is authenticated and the line's dispatched
(lower-cased first) token is `/confirm-reset`. -/
theorem c5_reset_protocol :
    ∀ (st st0 : AppState) (auth : Option String) (p : Bool) (now uid : String)
      (cmds : List String) (cmd : String),
      (processCommand auth p now st "/reset-data").deleteRequested = false
      ∧ (processCommand auth p now st "/reset-data").state = st
      ∧ (processCommand none p now st "/confirm-reset").deleteRequested = false
      ∧ (runCommands (some uid) p now st0 (cmds ++ ["/confirm-reset"])).2 = true
      ∧ ((processCommand auth p now st cmd).deleteRequested = true →
          auth.isSome = true
          ∧ toLowerString
              (((splitOnSpace (trimChars cmd.data)).map String.mk).headD "")
              = "/confirm-reset") := by
  intro st st0 auth p now uid cmds cmd
  refine ⟨rfl, rfl, rfl, ?_, ?_⟩
  · rw [runCommands_append, processCommand_confirmReset_requests]
    simp
  · intro h
    unfold processCommand at h
    dsimp only at h
    by_cases hv : (validateCommand cmd).isValid = false
    · rw [if_pos hv] at h
      simp at h
    · rw [if_neg hv] at h
      exact dispatch_delete_only_confirmReset _ _ _ _ _ _ _ h

/-- C9 counterexample: the raw line `" /play"` (leading space) lacks a
leading `/`, yet `processCommand` accepts it — the leading-slash and
pattern checks run on the sanitized trimmed text — and the dispatch
(which splits the raw trimmed line) starts the timer: a success result
and a state change. -/
theorem c9_leading_space_accepted :
    (" /play".data.head? == some '/') = false
    ∧ (processCommand none true "t" initialAppState " /play").result.success = true
    ∧ (processCommand none true "t" initialAppState
        " /play").state.timer.isRunning = true
    ∧ initialAppState.timer.isRunning = false := by
  refine ⟨?_, ?_, ?_, rfl⟩ <;> decide

/-- C9 amended: a raw line that is empty or over 500 characters, or whose
*sanitized, trimmed* text is empty, does not start with `/`, or fails the
command pattern, is rejected by `validateCommand` and `processCommand`
returns a failure carrying the validation's typed error, with no change to
timer, Settings or Stats state and no Store deletion. -/
theorem c9_rejected_input_no_effect :
    ∀ (s : String) (st : AppState) (auth : Option String) (p : Bool) (now : String),
      (s = "" ∨ 500 < s.length
        ∨ trimChars (sanitizeChars s.data) = []
        ∨ (trimChars (sanitizeChars s.data)).head? ≠ some '/'
        ∨ matchesCommandPattern (trimChars (sanitizeChars s.data)) = false) →
      (processCommand auth p now st s).result.success = false
      ∧ (processCommand auth p now st s).result.error = (validateCommand s).error
      ∧ (processCommand auth p now st s).state = st
      ∧ (processCommand auth p now st s).deleteRequested = false := by
  intro s st auth p now h
  have hinv : (validateCommand s).isValid = false := by
    unfold validateCommand
    dsimp only
    split_ifs with h1 h2 h3 h4 h5
    · rfl
    · rfl
    · rfl
    · rfl
    · rfl
    · exfalso
      rcases h with h | h | h | h | h
      · exact h1 h
      · exact h2 h
      · exact h3 h
      · exact h4 h
      · exact h5 h
  unfold processCommand
  rw [if_pos hinv]
  exact ⟨rfl, rfl, rfl, rfl⟩

/-- Witness for C9 at the slashless input `"play"`. -/
theorem c9_rejected_input_no_effect_witness :
    (processCommand none true "t" initialAppState "play").result.success = false
    ∧ (processCommand none true "t" initialAppState "play").state = initialAppState :=
  have h := c9_rejected_input_no_effect "play" initialAppState none true "t" (by decide)
  ⟨h.1, h.2.2.1⟩

end Pomodoro
